import Mathlib

/-!
Verification development for the RLBox-sandboxed PNG codec of this
repository (src/app/file/png_format.cpp).  The decode path (PngFormat::onLoad,
PngFormat::loadColorSpace, read_data_fn, png_user_chunk) and the encode path
(PngFormat::onSave and its helpers) are shallowly embedded below.

Boundary-crossing effects (foreign-heap allocation via
sandbox.malloc_in_sandbox / free_in_sandbox, callback registration via
sandbox.register_callback / .unregister, app-pointer registration via
sandbox.get_app_pointer / .unregister, row reads via png_read_rows, and the
cancellation poll fop->isStop) are modelled as an explicit event trace; pure
pixel and palette computations are embedded as Lean functions.
-/

namespace PngSandbox

/-- One boundary-crossing event issued by the codec.  `malloc`/`free` carry the
allocation site (a number identifying the `malloc_in_sandbox` call in
png_format.cpp); `regCb`/`unregCb` carry the callback handle, `regPtr`/`unregPtr`
the app-pointer handle.  `rowRead` is one `png_read_rows` call, `stopPoll` one
`fop->isStop()` poll together with its result. -/
inductive Ev
  | malloc (site : Nat)
  | free (site : Nat)
  | regCb (h : Nat)
  | unregCb (h : Nat)
  | regPtr (h : Nat)
  | unregPtr (h : Nat)
  | rowRead
  | stopPoll (b : Bool)
  deriving DecidableEq, Repr

/-- Callback handle of `userChunkCb` (png_format.cpp line 241). -/
abbrev userChunkCbH : Nat := 0
/-- Callback handle of `readDataCb` (png_format.cpp line 292). -/
abbrev readDataCbH : Nat := 1
/-- App-pointer handle of `optsPtr` (png_format.cpp line 263). -/
abbrev optsPtrH : Nat := 0
/-- App-pointer handle of `appPtr` for the FILE* (png_format.cpp line 288). -/
abbrev appPtrH : Nat := 1

def isMalloc : Ev → Bool
  | .malloc _ => true
  | _ => false

def isFree : Ev → Bool
  | .free _ => true
  | _ => false

/-- The inner row loop of onLoad (png_format.cpp lines 459-469) for one
interlace pass: for each remaining row, one `png_read_rows` call, then the
`fop->isStop()` poll; a true poll breaks out of the row loop.  The first
argument of the pair is the event trace, the second the updated poll counter
(`stop t` is the result of the t-th poll of the whole decode). -/
def rowLoop (stop : Nat → Bool) : Nat → Nat → List Ev × Nat
  | t, 0 => ([], t)
  | t, rem + 1 =>
    if stop t then ([Ev.rowRead, Ev.stopPoll true], t + 1)
    else
      let r := rowLoop stop (t + 1) rem
      (Ev.rowRead :: Ev.stopPoll false :: r.1, r.2)

/-- The outer pass loop of onLoad (png_format.cpp lines 458-470): the row loop
is restarted from row 0 for every interlace pass, whatever the previous pass's
polls returned. -/
def passLoop (stop : Nat → Bool) (height : Nat) : Nat → Nat → List Ev
  | _, 0 => []
  | t, p + 1 =>
    let r := rowLoop stop t height
    r.1 ++ passLoop stop height r.2 p

/-- Primary chromaticities as read from the cHRM chunk, already converted by
png_fixtof (gfx::ColorSpacePrimaries, filled at png_format.cpp lines 685-689).
Fixed-point/float conversions are modelled exactly over ℚ.  The last field is
the source's `by` member, renamed because `by` is reserved in Lean. -/
structure ColorSpacePrimaries where
  wx : ℚ
  wy : ℚ
  rx : ℚ
  ry : ℚ
  gx : ℚ
  gy : ℚ
  bx : ℚ
  bY : ℚ
  deriving DecidableEq, Repr

/-- Model of the gfx::ColorSpaceRef values produced by loadColorSpace:
MakeICC (with the optional name set at line 639), MakeSRGB, MakeRGB (a
transfer function whose only non-trivial coefficient is g, lines 697-703),
MakeRGBWithSRGBGamma (line 708), MakeSRGBWithGamma (line 714). -/
inductive ColorSpaceRef
  | icc (profile : List Nat) (name : Option String)
  | srgb
  | rgbWithGamma (primaries : ColorSpacePrimaries) (g : ℚ)
  | rgbSRGBGamma (primaries : ColorSpacePrimaries)
  | srgbWithGamma (g : ℚ)
  deriving DecidableEq, Repr

/-- The eight fixed-point values filled in by png_get_cHRM_fixed
(png_format.cpp lines 671-682); the source's `by` is renamed `bY` because
`by` is reserved in Lean. -/
structure ChrmFixed where
  wx : Int
  wy : Int
  rx : Int
  ry : Int
  gx : Int
  gy : Int
  bx : Int
  bY : Int
  deriving DecidableEq, Repr

/-- The color-space chunks available from the png info struct, as queried by
loadColorSpace: png_get_iCCP (profile bytes and the name, which is a possibly
null char*), png_get_valid(..., PNG_INFO_sRGB), png_get_cHRM_fixed (eight
fixed-point values), png_get_gAMA_fixed (one fixed-point value). -/
structure PngCSInfo where
  iccp : Option (List Nat × Option String)
  srgbValid : Bool
  chrm : Option ChrmFixed
  gama : Option Int
  deriving DecidableEq, Repr

/-- png_fixtof (png_format.cpp lines 168-175): fixed point to float,
multiplying by 0.00001; modelled exactly over ℚ. -/
def png_fixtof (x : Int) : ℚ := (x : ℚ) * (1 / 100000)

/-- The primaries built from a cHRM tuple (png_format.cpp lines 685-689). -/
def primariesOf (c : ChrmFixed) : ColorSpacePrimaries :=
  { wx := png_fixtof c.wx, wy := png_fixtof c.wy,
    rx := png_fixtof c.rx, ry := png_fixtof c.ry,
    gx := png_fixtof c.gx, gy := png_fixtof c.gy,
    bx := png_fixtof c.bx, bY := png_fixtof c.bY }

/-- PngFormat::loadColorSpace (png_format.cpp lines 595-732), value part:
first the ICC profile (lines 625-641, name attached only when the char* is
non-null), then the sRGB chunk (645-653), then chromaticities (671-709,
refined by gAMA when present, else sRGB gamma), then gAMA alone (712-715),
else no color space (line 731, nullptr). -/
def loadColorSpace (i : PngCSInfo) : Option ColorSpaceRef :=
  match i.iccp with
  | some (profile, name) => some (.icc profile name)
  | none =>
    if i.srgbValid then some .srgb
    else
      match i.chrm with
      | some c =>
        match i.gama with
        | some invGamma =>
          some (.rgbWithGamma (primariesOf c) (1 / png_fixtof invGamma))
        | none => some (.rgbSRGBGamma (primariesOf c))
      | none =>
        match i.gama with
        | some invGamma => some (.srgbWithGamma (1 / png_fixtof invGamma))
        | none => none

/-- The caller of loadColorSpace in onLoad (png_format.cpp lines 564-575):
a null result is replaced by the default MakeSRGB, and the resulting color
space is stored into the sprite only when the sprite's current color space
has type gfx::ColorSpace::None (modelled by `cur = none`). -/
def spriteCSAfterLoad (i : PngCSInfo) (cur : Option ColorSpaceRef) :
    Option ColorSpaceRef :=
  let cs := (loadColorSpace i).getD ColorSpaceRef.srgb
  if cur = none then some cs else cur

/-- Foreign-heap traffic of PngFormat::loadColorSpace (png_format.cpp lines
595-732).  Allocation sites: 20 tainted_profile, 21 tainted_length,
22 tainted_name, 23 tainted_compression (lines 617-623); 24-31 the eight
cHRM out-parameters, 32 tainted_invGamma (lines 660-669).  The frees at
lines 717-728 release sites 20-31 (never 32) and run only when every chunk
lookup failed; the ICC, sRGB, cHRM and gAMA returns free nothing. -/
def loadColorSpaceTrace (i : PngCSInfo) : List Ev :=
  [Ev.malloc 20, Ev.malloc 21, Ev.malloc 22, Ev.malloc 23] ++
  if i.iccp.isSome then []
  else if i.srgbValid then []
  else
    [Ev.malloc 24, Ev.malloc 25, Ev.malloc 26, Ev.malloc 27,
     Ev.malloc 28, Ev.malloc 29, Ev.malloc 30, Ev.malloc 31,
     Ev.malloc 32] ++
    if i.chrm.isSome then []
    else if i.gama.isSome then []
    else
      [Ev.free 20, Ev.free 21, Ev.free 22, Ev.free 23,
       Ev.free 24, Ev.free 25, Ev.free 26, Ev.free 27,
       Ev.free 28, Ev.free 29, Ev.free 30, Ev.free 31]

/-- The PNG color types accepted by onLoad's switch (png_format.cpp lines
350-375); `other` is the default branch. -/
inductive PngColorType
  | rgba | rgb | graya | gray | palette | other
  deriving DecidableEq, Repr

/-- Branch outcomes of one PngFormat::onLoad call: whether
png_create_read_struct returned null (line 247), whether
png_create_info_struct returned null (line 269), the IHDR color type, whether
fop->sequenceImage returned null (line 386), whether png_get_PLTE returned
nonzero (line 404), the image height, the number of interlace passes, the
results of the fop->isStop polls, and the color-space chunks present. -/
structure LoadParams where
  pngNull : Bool
  infoNull : Bool
  colorType : PngColorType
  imageNull : Bool
  plteOk : Bool
  height : Nat
  numberPasses : Nat
  stop : Nat → Bool
  cs : PngCSInfo

/-- Boundary-crossing event trace of PngFormat::onLoad (png_format.cpp lines
218-586).  Allocation sites: 0 sbLibVer (239), 1 sdf (261), 2-6 the five
png_get_IHDR out-parameters (303-307), 7 png_trans_color_ptr (397),
8 sb_palette and 9 sb_num_palette (401-402), 10 num_trans_ptr and
11 trans_ptr (423-424, palette branch only), 12 rows_pointer (450),
13 the per-row buffers (456, freed per row at 560; rows_pointer freed
at 562).  Early exits: null png struct (247-251), null info struct (271-276),
unsupported color type (368-374), null sequence image (386-393); otherwise
the row loops run, then loadColorSpace, then the four unregistrations of the
success path (581-584). -/
def onLoadTrace (p : LoadParams) : List Ev :=
  Ev.malloc 0 ::
  Ev.regCb userChunkCbH ::
  if p.pngNull then [Ev.unregCb userChunkCbH]
  else
    Ev.malloc 1 ::
    Ev.regPtr optsPtrH ::
    if p.infoNull then [Ev.unregCb userChunkCbH, Ev.unregPtr optsPtrH]
    else
      Ev.regPtr appPtrH ::
      Ev.regCb readDataCbH ::
      Ev.malloc 2 :: Ev.malloc 3 :: Ev.malloc 4 :: Ev.malloc 5 :: Ev.malloc 6 ::
      if p.colorType = PngColorType.other then
        [Ev.unregCb readDataCbH, Ev.unregCb userChunkCbH,
         Ev.unregPtr appPtrH, Ev.unregPtr optsPtrH]
      else if p.imageNull then
        [Ev.unregCb userChunkCbH, Ev.unregCb readDataCbH,
         Ev.unregPtr appPtrH, Ev.unregPtr optsPtrH]
      else
        Ev.malloc 7 ::
        Ev.malloc 8 :: Ev.malloc 9 ::
        ((if p.colorType = PngColorType.palette ∧ p.plteOk then
            [Ev.malloc 10, Ev.malloc 11]
          else []) ++
        Ev.malloc 12 ::
        (List.replicate p.height (Ev.malloc 13) ++
         passLoop p.stop p.height 0 p.numberPasses ++
         List.replicate p.height (Ev.free 13) ++
         Ev.free 12 ::
         (loadColorSpaceTrace p.cs ++
          [Ev.unregCb readDataCbH, Ev.unregCb userChunkCbH,
           Ev.unregPtr appPtrH, Ev.unregPtr optsPtrH])))

/-- Color-space chunk info with every lookup failing. -/
def csNone : PngCSInfo :=
  { iccp := none, srgbValid := false, chrm := none, gama := none }

/-- Successful decode of a 1x1 non-interlaced RGB image with no palette, no
cancellation and no color-space chunks. -/
def plainRgbLoad : LoadParams :=
  { pngNull := false, infoNull := false, colorType := PngColorType.rgb,
    imageNull := false, plteOk := false, height := 1, numberPasses := 1,
    stop := fun _ => false, cs := csNone }

/-! Pixel packing (doc/color.h): rgba packs the four bytes with shifts
0/8/16/24, graya packs value and alpha with shifts 0/8; the getters extract
the corresponding byte. -/

def rgba (r g b a : Nat) : Nat :=
  r ||| (g <<< 8) ||| (b <<< 16) ||| (a <<< 24)

def rgba_getr (c : Nat) : Nat := c &&& 255

def rgba_getg (c : Nat) : Nat := (c >>> 8) &&& 255

def rgba_getb (c : Nat) : Nat := (c >>> 16) &&& 255

def rgba_geta (c : Nat) : Nat := (c >>> 24) &&& 255

def graya (v a : Nat) : Nat := v ||| (a <<< 8)

def graya_getv (c : Nat) : Nat := c &&& 255

def graya_geta (c : Nat) : Nat := (c >>> 8) &&& 255

/-- The fields of the png_color_16 record pointed to by `png_trans_color`
(png_format.cpp lines 396, 446-448) that the conversion loops compare
against. -/
structure PngColor16 where
  red : Nat
  green : Nat
  blue : Nat
  gray : Nat
  deriving DecidableEq, Repr

/-- The PNG_COLOR_TYPE_RGB row conversion of onLoad (png_format.cpp lines
492-516): three source bytes per pixel; a pixel matching the declared
transparent color exactly gets alpha 0, every other pixel alpha 255; the
result is the packed rgba value stored into the host image row.  `src i` is
the i-th byte of the decoded row buffer. -/
def convertRGBRow (transColor : Option PngColor16) (src : Nat → Nat)
    (width : Nat) : List Nat :=
  (List.range width).map fun x =>
    let r := src (3 * x)
    let g := src (3 * x + 1)
    let b := src (3 * x + 2)
    let a :=
      match transColor with
      | some t => if r = t.red ∧ g = t.green ∧ b = t.blue then 0 else 255
      | none => 255
    rgba r g b a

/-- The PNG_COLOR_TYPE_GRAY row conversion of onLoad (png_format.cpp lines
530-550): one source byte per pixel; a pixel matching the declared
transparent gray value exactly gets alpha 0, every other pixel alpha 255. -/
def convertGrayRow (transColor : Option PngColor16) (src : Nat → Nat)
    (width : Nat) : List Nat :=
  (List.range width).map fun x =>
    let k := src x
    let a :=
      match transColor with
      | some t => if k = t.gray then 0 else 255
      | none => 255
    graya k a

/-! Indexed transparency (claim C7). -/

/-- The mask-entry scan of onLoad's palette branch (png_format.cpp lines
430-440): for each tRNS alpha, if it is below 255 and equal to 0 and no mask
entry was chosen yet, the current index becomes the mask entry.  `i` is the
current index, `m` the current mask_entry (initially -1). -/
def maskEntryAux : List Nat → Nat → Int → Int
  | [], _, m => m
  | a :: rest, i, m =>
    maskEntryAux rest (i + 1)
      (if a < 255 then (if a = 0 then (if m < 0 then (i : Int) else m) else m)
       else m)

/-- mask_entry after the tRNS scan (png_format.cpp lines 422, 430-440). -/
def maskEntry (trans : List Nat) : Int := maskEntryAux trans 0 (-1)

/-- The sprite's transparent color after the palette branch of onLoad
(png_format.cpp lines 442-443): set to mask_entry when one was found, else
left at its current value. -/
def spriteTransparentColorAfterLoad (trans : List Nat) (current : Nat) : Nat :=
  if 0 ≤ maskEntry trans then (maskEntry trans).toNat else current

/-- base::clamp (base/clamp.h): value > high gives high, value < low gives
low, else value. -/
def base_clamp (value low high : Nat) : Nat :=
  if value > high then high else if value < low then low else value

/-- Inputs of onSave's indexed-palette transparency block (png_format.cpp
lines 843-895): the palette size reported by fop->sequenceGetNColors, whether
the sprite's background layer is absent or invisible (lines 869-870), the
sprite's transparent color, and the per-entry alphas from
fop->sequenceGetAlpha. -/
structure SaveIndexedParams where
  ncolors : Nat
  bgAbsentOrHidden : Bool
  transparentColor : Nat
  alpha : Nat → Nat

/-- pal_size (png_format.cpp line 846): clamped to [1, PNG_MAX_PALETTE_LENGTH]
with PNG_MAX_PALETTE_LENGTH = 256. -/
def save_pal_size (p : SaveIndexedParams) : Nat := base_clamp p.ncolors 1 256

/-- mask_entry on save (png_format.cpp lines 868-872): the sprite's
transparent color when the background layer is null or invisible, else -1. -/
def save_mask_entry (p : SaveIndexedParams) : Int :=
  if p.bgAbsentOrHidden then (p.transparentColor : Int) else -1

/-- The bytes written into the tRNS buffer (png_format.cpp lines 880-887):
entry c is 0 when c equals mask_entry, regardless of its stored alpha, else
the stored alpha. -/
def save_trans_bytes (p : SaveIndexedParams) : List Nat :=
  (List.range (save_pal_size p)).map fun (c : Nat) =>
    if (c : Int) = save_mask_entry p then 0 else p.alpha c

/-- all_opaque (png_format.cpp lines 874, 880-887): true when no stored
palette alpha is below 255. -/
def save_allOpq (p : SaveIndexedParams) : Bool :=
  (List.range (save_pal_size p)).all fun c => !decide (p.alpha c < 255)

/-- The tRNS chunk passed to png_set_tRNS, if any (png_format.cpp lines
890-891): written exactly when some entry is non-opaque or a mask entry was
designated. -/
def save_tRNS_payload (p : SaveIndexedParams) : Option (List Nat) :=
  if !save_allOpq p ∨ 0 ≤ save_mask_entry p then some (save_trans_bytes p)
  else none

/-! The one-pixel-alpha fix-up on save (claim C8). -/

/-- The PNG_COLOR_TYPE_RGB_ALPHA row emission of onSave for an IMAGE_RGB
source (png_format.cpp lines 907-929), as the flat byte list written into the
row buffer.  `fix` is the fix_one_alpha_pixel flag, `lastRow` is y = height-1,
`src x` the 32-bit host pixel at column x.  The per-row `opaque` flag starts
true and is cleared by the first alpha below 255; only while it is still set
can the fix-up rewrite a 255 alpha of the last pixel to 254.  The first
argument counts the remaining columns, the second is the current column. -/
def saveRgbaRowAux (fix lastRow : Bool) (width : Nat) (src : Nat → Nat) :
    Nat → Nat → Bool → List Nat
  | 0, _, _ => []
  | rem + 1, x, opq =>
    let c := src x
    let a := rgba_geta c
    let step : Nat × Bool :=
      if opq then
        if a < 255 then (a, false)
        else if fix ∧ x = width - 1 ∧ lastRow then (254, opq)
        else (a, opq)
      else (a, opq)
    rgba_getr c :: rgba_getg c :: rgba_getb c :: step.1 ::
      saveRgbaRowAux fix lastRow width src rem (x + 1) step.2

/-- One full row written by the RGBA save path (png_format.cpp lines
904-929): the column loop starting at x = 0 with opaque = true. -/
def saveRgbaRow (fix lastRow : Bool) (width : Nat) (src : Nat → Nat) :
    List Nat :=
  saveRgbaRowAux fix lastRow width src width 0 true

/-! Unknown chunks (claim C2). -/

/-- PngOptions::Chunk as filled by png_user_chunk: a 4-byte tag, the
placement marker, and the raw payload. -/
structure PngChunk where
  name : List Nat
  location : Nat
  data : List Nat
  deriving DecidableEq, Repr

/-- The png_unknown_chunk records built by onSave from the document's
PngOptions (png_format.cpp lines 815-832): a 5-byte name padded with zeros,
the payload, and the location. -/
structure PngUnknownChunk where
  name : List Nat
  data : List Nat
  location : Nat
  deriving DecidableEq, Repr

/-- The chunk collected by the png_user_chunk callback on decode
(png_format.cpp lines 199-209): 4 name bytes, the location, and `size`
payload bytes (none when size = 0). -/
def png_user_chunk_record (name : Nat → Nat) (size : Nat) (location : Nat)
    (data : Nat → Nat) : PngChunk :=
  { name := (List.range 4).map name,
    location := location,
    data := if size > 0 then (List.range size).map data else [] }

/-- The unknowns vector built by onSave (png_format.cpp lines 815-832). -/
def buildUnknowns (chunks : List PngChunk) : List PngUnknownChunk :=
  chunks.map fun ch =>
    { name := (List.range 5).map (fun i => ch.name.getD i 0),
      data := ch.data,
      location := ch.location }

/-- The unknown chunks actually registered with the sandboxed libpng encoder
during onSave.  The only call that would hand the `unknowns` vector to
libpng, png_set_unknown_chunks, is commented out behind a TODO
(png_format.cpp lines 833-835), so nothing is registered and the written
file carries no unknown chunk, whatever buildUnknowns computed. -/
def onSaveRegisteredUnknownChunks (chunks : List PngChunk) :
    List PngUnknownChunk :=
  let _unknowns := buildUnknowns chunks
  []

/-! The read-data callback (claim C9). -/

/-- Events of one read_data_fn invocation: the fread call with its requested
byte count, foreign-heap allocation/release of the error-message string, the
png_error call into the domain carrying the message, and any
fop->setError call on the host (there is none in read_data_fn). -/
inductive ReadEv
  | freadCall (requested : Nat)
  | mallocMsg
  | freeMsg
  | pngErrorCall (msg : String)
  | hostSetError (msg : String)
  deriving DecidableEq, Repr

def isHostSetError : ReadEv → Bool
  | .hostSetError _ => true
  | _ => false

/-- The message string passed to png_error on a short read (png_format.cpp
line 122). -/
def read_error_msg : String := "read error in read_data_memory"

/-- read_data_fn (png_format.cpp lines 108-129): one fread; when it returns
fewer bytes than requested, an error string is allocated in the foreign heap
(tainted_msg, line 124) and png_error is invoked with it (line 127).  No
free_in_sandbox call and no fop->setError call appear anywhere in the
handler. -/
def read_data_fn_trace (requested result : Nat) : List ReadEv :=
  ReadEv.freadCall requested ::
  if result ≠ requested then
    [ReadEv.mallocMsg, ReadEv.pngErrorCall read_error_msg]
  else []

/-! onSave's boolean result (claim C10). -/

/-- Branch outcomes of one PngFormat::onSave call.  The last three fields
model failure of later encoding steps (a png_write_row on some row,
png_write_end, the underlying file I/O); the code has no way to observe
them: the setjmp error handling is commented out (png_format.cpp lines
771-774), the error callbacks passed to png_create_write_struct are null
(line 755), and no write call's outcome is checked. -/
structure SaveOutcomes where
  pngNull : Bool
  infoNull : Bool
  rowWriteFails : Nat → Bool
  writeEndFails : Bool
  ioFails : Bool

/-- The boolean result of PngFormat::onSave (png_format.cpp lines 736-1019):
false only at the two null checks after png_create_write_struct (line 757)
and png_create_info_struct (line 768); every other path reaches the final
`return true` (line 1019). -/
def onSaveResult (o : SaveOutcomes) : Bool :=
  if o.pngNull then false
  else if o.infoNull then false
  else true

/-- A save call where every later step fails in every modelled way. -/
def allFailSaveOutcome : SaveOutcomes :=
  { pngNull := false, infoNull := false, rowWriteFails := fun _ => true,
    writeEndFails := true, ioFails := true }

/-- True when no png_read_rows call occurs after a fop->isStop poll has
returned true. -/
def noRowReadAfterStop (l : List Ev) : Bool :=
  (l.dropWhile (fun e => e != Ev.stopPoll true)).count Ev.rowRead == 0

/-- Events that the row loops can emit. -/
def isRowEv (e : Ev) : Bool :=
  e == Ev.rowRead || e == Ev.stopPoll true || e == Ev.stopPoll false

/-- Events that loadColorSpace can emit: foreign-heap traffic on its own
allocation sites (20 and up). -/
def isCsHeapEv : Ev → Bool
  | .malloc s => 20 ≤ s
  | .free s => 20 ≤ s
  | _ => false

/-- A decode cancelled from the start: fop->isStop answers true at every
poll, on a 2-row interlaced image with 7 passes. -/
def cancelledLoad : LoadParams :=
  { pngNull := false, infoNull := false, colorType := PngColorType.rgb,
    imageNull := false, plteOk := false, height := 2, numberPasses := 7,
    stop := fun _ => true, cs := csNone }

/-- The unknown chunk of the spec's round-trip scenario: tag "abcd"
(bytes 97 98 99 100), placement marker 1 (before the image data), payload
0x01 0x02 0x03. -/
def abcdChunk : PngChunk :=
  { name := [97, 98, 99, 100], location := 1, data := [1, 2, 3] }

/-- Color-space chunk info carrying only a gAMA chunk (1/gamma = 0.45455 in
fixed point). -/
def gammaOnlyInfo : PngCSInfo :=
  { iccp := none, srgbValid := false, chrm := none, gama := some 45455 }

/-- The last row of an RGBA save whose first pixel is fully transparent and
whose last pixel is fully opaque. -/
def lastRowWithHole : Nat → Nat :=
  fun x => if x = 0 then rgba 0 0 0 0 else rgba 0 0 0 255

/-- A one-pixel fully opaque RGBA row. -/
def opaqueOnePixelRow : Nat → Nat := fun _ => rgba 9 8 7 255

/-- Indexed-save inputs: 4 palette entries, background absent, transparent
color 2, every stored palette alpha fully opaque. -/
def maskedIndexedSave : SaveIndexedParams :=
  { ncolors := 4, bgAbsentOrHidden := true, transparentColor := 2,
    alpha := fun _ => 255 }

/-! Helper lemmas -/

lemma count_eq_zero_of_all (l : List Ev) (q : Ev → Bool) (hall : l.all q = true)
    (e : Ev) (he : q e = false) : l.count e = 0 := by
  rw [List.count_eq_zero]
  intro hmem
  have := List.all_eq_true.mp hall e hmem
  simp_all

lemma rowLoop_all_rowEv (stop : Nat → Bool) :
    ∀ n t, ((rowLoop stop t n).1).all isRowEv = true := by
  intro n
  induction n with
  | zero => intro t; rfl
  | succ m ih =>
    intro t
    rw [rowLoop]
    by_cases hs : stop t
    · simp [hs, isRowEv]
    · simp only [hs, if_false, Bool.false_eq_true]
      simp [List.all_cons, isRowEv, ih (t + 1)]

lemma passLoop_all_rowEv (stop : Nat → Bool) (height : Nat) :
    ∀ p t, (passLoop stop height t p).all isRowEv = true := by
  intro p
  induction p with
  | zero => intro t; rfl
  | succ q ih =>
    intro t
    rw [passLoop]
    simp only [List.all_append, Bool.and_eq_true]
    exact ⟨rowLoop_all_rowEv stop height t, ih _⟩

lemma passLoop_count_not_row (stop : Nat → Bool) (height p t : Nat) (e : Ev)
    (he : isRowEv e = false) : (passLoop stop height t p).count e = 0 :=
  count_eq_zero_of_all _ _ (passLoop_all_rowEv stop height p t) e he

lemma loadColorSpaceTrace_all_csHeap (i : PngCSInfo) :
    (loadColorSpaceTrace i).all isCsHeapEv = true := by
  unfold loadColorSpaceTrace
  split_ifs <;> decide

lemma loadColorSpaceTrace_count_not_cs (i : PngCSInfo) (e : Ev)
    (he : isCsHeapEv e = false) : (loadColorSpaceTrace i).count e = 0 :=
  count_eq_zero_of_all _ _ (loadColorSpaceTrace_all_csHeap i) e he

lemma getD_range_map (f : Nat → Nat) (w x d : Nat) (hx : x < w) :
    ((List.range w).map f).getD x d = f x := by
  rw [List.getD_eq_getElem?_getD, List.getElem?_map, List.getElem?_range hx]
  rfl

lemma lor_shift_extract (k x a : Nat) (hx : x < 2 ^ k) (ha : a < 2 ^ 8) :
    ((x ||| a <<< k) >>> k) &&& 255 = a := by
  apply Nat.eq_of_testBit_eq
  intro i
  have h255 : (255 : Nat) = 2 ^ 8 - 1 := by norm_num
  simp only [Nat.testBit_and, Nat.testBit_shiftRight, Nat.testBit_or,
    Nat.testBit_shiftLeft, h255, Nat.testBit_two_pow_sub_one]
  have hlek : (2 : Nat) ^ k ≤ 2 ^ (k + i) := Nat.pow_le_pow_right (by omega) (by omega)
  have hxk : x.testBit (k + i) = false :=
    Nat.testBit_lt_two_pow (lt_of_lt_of_le hx hlek)
  rw [hxk]
  have hk : k ≤ k + i := by omega
  simp only [Bool.false_or, hk, decide_True, Bool.true_and,
    Nat.add_sub_cancel_left]
  by_cases h8 : i < 8
  · simp [h8]
  · have hlei : (2 : Nat) ^ 8 ≤ 2 ^ i := Nat.pow_le_pow_right (by omega) (by omega)
    have ha8 : a.testBit i = false :=
      Nat.testBit_lt_two_pow (lt_of_lt_of_le ha hlei)
    simp [ha8, h8]

lemma rgba_geta_rgba (r g b a : Nat) (hr : r < 256) (hg : g < 256)
    (hb : b < 256) (ha : a < 256) : rgba_geta (rgba r g b a) = a := by
  unfold rgba rgba_geta
  have hg8 : g <<< 8 = g * 256 := by rw [Nat.shiftLeft_eq]
  have hb16 : b <<< 16 = b * 65536 := by rw [Nat.shiftLeft_eq]
  have h1 : r ||| g <<< 8 ||| b <<< 16 < 2 ^ 24 := by
    apply Nat.or_lt_two_pow
    · apply Nat.or_lt_two_pow
      · omega
      · rw [hg8]
        omega
    · rw [hb16]
      omega
  exact lor_shift_extract 24 _ a h1 (by omega)

lemma graya_geta_graya (v a : Nat) (hv : v < 256) (ha : a < 256) :
    graya_geta (graya v a) = a := by
  unfold graya graya_geta
  exact lor_shift_extract 8 v a (by omega) (by omega)

/-! Claim theorems -/

/-- Claim C1: the claim states that every malloc_in_sandbox issued during an
onLoad call has a matching free_in_sandbox before the call returns.  On the
plain success path of a 1x1 RGB decode the code issues 25 foreign-heap
allocations but only 14 frees: sbLibVer, sdf, the five IHDR out-parameters,
the transparent-color and palette out-parameters and loadColorSpace's
tainted_invGamma are never freed, and loadColorSpace frees nothing at all on
its early returns.  The code, not the claim, is at fault (the matching frees
exist only as commented-out code, e.g. png_format.cpp lines 105, 211). -/
theorem c1_onLoad_alloc_free_mismatch :
    (onLoadTrace plainRgbLoad).countP isMalloc = 25 ∧
    (onLoadTrace plainRgbLoad).countP isFree = 14 ∧
    (onLoadTrace plainRgbLoad).countP isMalloc ≠
      (onLoadTrace plainRgbLoad).countP isFree := by
  decide

/-- Claim C2: the claim states that a decoded image carrying one
unrecognized chunk (tag "abcd", placement before the image data, payload
01 02 03) re-encodes to a file containing that chunk.  The decode side does
collect exactly that record (png_user_chunk, png_format.cpp lines 199-209),
and onSave builds the corresponding png_unknown_chunk vector, but the
png_set_unknown_chunks call that would hand it to the encoder is commented
out (line 835), so no unknown chunk reaches the written file. -/
theorem c2_unknown_chunk_not_reencoded :
    png_user_chunk_record (fun i => [97, 98, 99, 100].getD i 0) 3 1
        (fun i => [1, 2, 3].getD i 0) = abcdChunk ∧
    buildUnknowns [abcdChunk] ≠ [] ∧
    onSaveRegisteredUnknownChunks [abcdChunk] = [] := by
  decide

/-- Claim C9: the claim states that a short read allocates the error message
in the foreign heap, frees it after png_error returns, and surfaces a false
return with a host error message containing "read error".  In the code the
handler does allocate the message (whose text does start with "read error")
and calls png_error, but contains no free_in_sandbox call and no
fop→setError call; with the setjmp error handling of onLoad commented out
(png_format.cpp lines 281-286) no "read error" message ever reaches the
host. -/
theorem c9_short_read_handler :
    (read_data_fn_trace 10 3).count ReadEv.mallocMsg = 1 ∧
    ReadEv.pngErrorCall read_error_msg ∈ read_data_fn_trace 10 3 ∧
    read_error_msg.take 10 = "read error" ∧
    (read_data_fn_trace 10 3).count ReadEv.freeMsg = 0 ∧
    (read_data_fn_trace 10 3).countP isHostSetError = 0 := by
  decide

/-- Claim C10: once png_create_write_struct and png_create_info_struct have
both returned non-null, onSave returns true whatever happens later; no row
write, write_end or file I/O failure is reported through the boolean
result. -/
theorem c10_onSave_always_true (o : SaveOutcomes)
    (h1 : o.pngNull = false) (h2 : o.infoNull = false) :
    onSaveResult o = true := by
  simp [onSaveResult, h1, h2]

/-- Witness for C10 at a save call whose every later step fails. -/
theorem c10_onSave_always_true_witness :
    onSaveResult allFailSaveOutcome = true :=
  c10_onSave_always_true allFailSaveOutcome rfl rfl

/-- Claim C4: loadColorSpace resolves the embedded color space by fixed
first-match priority: ICC profile, then sRGB chunk, then chromaticities
(with declared gamma when a gAMA chunk is present, else sRGB gamma), then
gamma alone, else no color space, in which case the caller applies the
default sRGB to the document only if the document has no existing color
space. -/
theorem c4_color_space_priority (i : PngCSInfo) (cur : Option ColorSpaceRef) :
    (∀ pr nm, i.iccp = some (pr, nm) →
      loadColorSpace i = some (ColorSpaceRef.icc pr nm)) ∧
    (i.iccp = none → i.srgbValid = true →
      loadColorSpace i = some ColorSpaceRef.srgb) ∧
    (∀ c g, i.iccp = none → i.srgbValid = false → i.chrm = some c →
      i.gama = some g →
      loadColorSpace i =
        some (ColorSpaceRef.rgbWithGamma (primariesOf c) (1 / png_fixtof g))) ∧
    (∀ c, i.iccp = none → i.srgbValid = false → i.chrm = some c →
      i.gama = none →
      loadColorSpace i = some (ColorSpaceRef.rgbSRGBGamma (primariesOf c))) ∧
    (∀ g, i.iccp = none → i.srgbValid = false → i.chrm = none →
      i.gama = some g →
      loadColorSpace i = some (ColorSpaceRef.srgbWithGamma (1 / png_fixtof g))) ∧
    (i.iccp = none → i.srgbValid = false → i.chrm = none → i.gama = none →
      loadColorSpace i = none ∧
      spriteCSAfterLoad i cur =
        (if cur = none then some ColorSpaceRef.srgb else cur)) := by
  refine ⟨?_, ?_, ?_, ?_, ?_, ?_⟩ <;>
    intros <;>
    simp_all [loadColorSpace, spriteCSAfterLoad]

/-- Witness for C4: an image carrying only a gAMA chunk resolves to sRGB
primaries with the declared gamma. -/
theorem c4_color_space_priority_witness :
    loadColorSpace gammaOnlyInfo =
      some (ColorSpaceRef.srgbWithGamma (1 / png_fixtof 45455)) :=
  (c4_color_space_priority gammaOnlyInfo none).2.2.2.2.1 45455 rfl rfl rfl rfl

lemma saveRgbaRowAux_fix_last (width : Nat) (src : Nat → Nat) :
    ∀ rem x, rem + x = width → x < width →
    (∀ j, x ≤ j → j < width - 1 → rgba_geta (src j) = 255) →
    rgba_geta (src (width - 1)) = 255 →
    (saveRgbaRowAux true true width src rem x true).getD
      (4 * (width - 1 - x) + 3) 0 = 254 := by
  intro rem
  induction rem with
  | zero =>
    intro x hsum hx _ _
    omega
  | succ m ih =>
    intro x hsum hx hopq hlast
    by_cases hcol : x = width - 1
    · subst hcol
      rw [saveRgbaRowAux]
      simp only [hlast, lt_irrefl, if_false, true_and, and_true, if_pos rfl,
        Nat.sub_self, Nat.mul_zero, Nat.zero_add]
      rfl
    · have hax : rgba_geta (src x) = 255 := hopq x le_rfl (by omega)
      have hidx : 4 * (width - 1 - x) + 3 =
          4 * (width - 1 - (x + 1)) + 3 + 1 + 1 + 1 + 1 := by omega
      rw [saveRgbaRowAux, hidx]
      simp only [hax, lt_irrefl, if_false, hcol, false_and, and_false,
        List.getD_cons_succ]
      exact ih (x + 1) (by omega) (by omega)
        (fun j hj1 hj2 => hopq j (by omega) hj2) hlast

/-- Claim C8 counterexample: with the fix-up toggle active, a last row whose
first pixel is transparent and whose final pixel has alpha 255 is written
with final alpha 255, not 254: the per-row opaque flag was cleared before
the last column, so the fix-up is skipped. -/
theorem c8_counterexample_last_row_not_opaque :
    rgba_geta (lastRowWithHole 1) = 255 ∧
    (saveRgbaRow true true 2 lastRowWithHole).getD 7 0 = 255 ∧
    (255 : Nat) ≠ 254 := by
  decide

/-- Claim C8 (amended): when the fix-up toggle is active and every pixel of
the final row before the last column is fully opaque, a 255 alpha of the
final pixel is written as 254. -/
theorem c8_amended_one_alpha_pixel (width : Nat) (src : Nat → Nat)
    (hw : 0 < width)
    (hopq : ∀ j, j < width - 1 → rgba_geta (src j) = 255)
    (hlast : rgba_geta (src (width - 1)) = 255) :
    (saveRgbaRow true true width src).getD (4 * (width - 1) + 3) 0 = 254 := by
  unfold saveRgbaRow
  have h := saveRgbaRowAux_fix_last width src width 0 (by omega) hw
    (fun j _ hj => hopq j hj) hlast
  simpa using h

/-- Witness for C8 (amended) on a one-pixel fully opaque row. -/
theorem c8_amended_one_alpha_pixel_witness :
    (saveRgbaRow true true 1 opaqueOnePixelRow).getD 3 0 = 254 := by
  have h := c8_amended_one_alpha_pixel 1 opaqueOnePixelRow (by decide)
    (fun j hj => absurd hj (by omega)) (by decide)
  simpa using h

/-- Claim C5: decoding an RGB (resp. grayscale) image with a declared
transparent color, the pixel stored at column x of a converted row carries
alpha 0 exactly when its source samples equal the declared color, and alpha
255 otherwise; the substitution is part of the conversion functions
themselves. -/
theorem c5_transparent_color_substitution (t : PngColor16) (src : Nat → Nat)
    (width x : Nat) (hx : x < width)
    (hr : src (3 * x) < 256) (hg : src (3 * x + 1) < 256)
    (hb : src (3 * x + 2) < 256) (hk : src x < 256) :
    rgba_geta ((convertRGBRow (some t) src width).getD x 0) =
      (if src (3 * x) = t.red ∧ src (3 * x + 1) = t.green ∧
          src (3 * x + 2) = t.blue then 0 else 255) ∧
    graya_geta ((convertGrayRow (some t) src width).getD x 0) =
      (if src x = t.gray then 0 else 255) := by
  constructor
  · unfold convertRGBRow
    rw [getD_range_map _ _ _ _ hx]
    have hlt : (if src (3 * x) = t.red ∧ src (3 * x + 1) = t.green ∧
        src (3 * x + 2) = t.blue then 0 else 255) < 256 := by
      split_ifs <;> omega
    exact rgba_geta_rgba _ _ _ _ hr hg hb hlt
  · unfold convertGrayRow
    rw [getD_range_map _ _ _ _ hx]
    have hlt : (if src x = t.gray then 0 else 255) < 256 := by
      split_ifs <;> omega
    exact graya_geta_graya _ _ hk hlt

/-- Witness for C5 on a one-pixel row whose samples equal the declared
transparent color. -/
theorem c5_transparent_color_substitution_witness :
    rgba_geta ((convertRGBRow (some (PngColor16.mk 1 2 3 1))
        (fun i => [1, 2, 3].getD i 0) 1).getD 0 0) =
      (if (1 : Nat) = 1 ∧ (2 : Nat) = 2 ∧ (3 : Nat) = 3 then 0 else 255) ∧
    graya_geta ((convertGrayRow (some (PngColor16.mk 1 2 3 1))
        (fun i => [1, 2, 3].getD i 0) 1).getD 0 0) =
      (if (1 : Nat) = 1 then 0 else 255) :=
  c5_transparent_color_substitution (PngColor16.mk 1 2 3 1)
    (fun i => [1, 2, 3].getD i 0) 1 0 (by decide) (by decide) (by decide)
    (by decide) (by decide)

lemma maskEntryAux_nonneg (l : List Nat) :
    ∀ i m, 0 ≤ m → maskEntryAux l i m = m := by
  induction l with
  | nil => intro i m _; rfl
  | cons a rest ih =>
    intro i m hm
    have hbr : (if a < 255 then
        (if a = 0 then (if m < 0 then (i : Int) else m) else m) else m) = m := by
      split_ifs <;> first | rfl | omega
    rw [maskEntryAux, hbr]
    exact ih _ _ hm

lemma maskEntryAux_first_zero (l : List Nat) :
    ∀ k i, l.get? k = some 0 → (∀ j, j < k → l.get? j ≠ some 0) →
    maskEntryAux l i (-1) = ((i + k : Nat) : Int) := by
  induction l with
  | nil => intro k i h _; simp at h
  | cons a rest ih =>
    intro k i h hfirst
    cases k with
    | zero =>
      have ha : a = 0 := by simpa using h
      subst ha
      rw [maskEntryAux]
      norm_num
      rw [maskEntryAux_nonneg rest (i + 1) (i : Int) (Int.ofNat_nonneg i)]
    | succ q =>
      have ha : a ≠ 0 := by
        have := hfirst 0 (Nat.succ_pos q)
        simpa using this
      have hbr : (if a < 255 then
          (if a = 0 then (if (-1 : Int) < 0 then (i : Int) else -1) else -1)
          else -1) = -1 := by
        split_ifs <;> simp_all
      rw [maskEntryAux, hbr]
      have hrec := ih q (i + 1) (by simpa using h)
        (fun j hj => by
          have := hfirst (j + 1) (by omega)
          simpa using this)
      rw [hrec]
      omega

/-- Claim C7: for an indexed image, the first palette index whose tRNS alpha
is 0 becomes the sprite's transparent color on decode; on encode with the
background layer absent or hidden, the tRNS chunk is written and its entry
at the sprite's transparent-color index is 0 whatever alpha is stored for
that index. -/
theorem c7_mask_index (trans : List Nat) (cur k : Nat)
    (p : SaveIndexedParams)
    (hk : trans.get? k = some 0) (hfirst : ∀ j, j < k → trans.get? j ≠ some 0)
    (hbg : p.bgAbsentOrHidden = true)
    (htc : p.transparentColor < save_pal_size p) :
    spriteTransparentColorAfterLoad trans cur = k ∧
    save_tRNS_payload p = some (save_trans_bytes p) ∧
    (save_trans_bytes p).getD p.transparentColor 255 = 0 := by
  have hmask : save_mask_entry p = (p.transparentColor : Int) := by
    unfold save_mask_entry
    rw [hbg]
    rfl
  refine ⟨?_, ?_, ?_⟩
  · unfold spriteTransparentColorAfterLoad maskEntry
    rw [maskEntryAux_first_zero trans k 0 hk hfirst]
    simp
  · unfold save_tRNS_payload
    have hm : (0 : Int) ≤ save_mask_entry p := by
      rw [hmask]
      exact Int.ofNat_nonneg _
    simp [hm]
  · unfold save_trans_bytes
    rw [getD_range_map _ _ _ _ htc, hmask]
    simp

/-- Witness for C7: tRNS alphas 255, 10, 0, 0 designate index 2 on decode;
on encode with a hidden background and transparent color 2 over a fully
opaque stored palette, the written tRNS entry 2 is 0. -/
theorem c7_mask_index_witness :
    spriteTransparentColorAfterLoad [255, 10, 0, 0] 0 = 2 ∧
    save_tRNS_payload maskedIndexedSave =
      some (save_trans_bytes maskedIndexedSave) ∧
    (save_trans_bytes maskedIndexedSave).getD 2 255 = 0 :=
  c7_mask_index [255, 10, 0, 0] 0 2 maskedIndexedSave (by decide)
    (by decide) (by decide) (by decide)

lemma rowLoop_count_rowRead_stopTrue (stop : Nat → Bool)
    (hs : ∀ t, stop t = true) :
    ∀ n t, ((rowLoop stop t n).1).count Ev.rowRead =
      if n = 0 then 0 else 1 := by
  intro n
  cases n with
  | zero => intro t; rfl
  | succ m =>
    intro t
    rw [rowLoop]
    simp [hs t]

lemma passLoop_count_rowRead_stopTrue (stop : Nat → Bool)
    (hs : ∀ t, stop t = true) (height : Nat) :
    ∀ p t, (passLoop stop height t p).count Ev.rowRead =
      p * (if height = 0 then 0 else 1) := by
  intro p
  induction p with
  | zero => intro t; simp [passLoop]
  | succ q ih =>
    intro t
    rw [passLoop]
    simp only [List.count_append, rowLoop_count_rowRead_stopTrue stop hs height,
      ih]
    ring

/-- Claim C3 counterexample: decoding a 2-row 7-pass interlaced image with
cancellation requested from the start, row reads do occur after a stop poll
has returned true — the broken inner loop is restarted by the pass loop, so
7 reads are issued in total (one per pass) instead of stopping at 1. -/
theorem c3_counterexample_reads_after_stop :
    noRowReadAfterStop (onLoadTrace cancelledLoad) = false ∧
    (onLoadTrace cancelledLoad).count Ev.rowRead = 7 := by
  decide

set_option maxHeartbeats 1600000 in
/-- Claim C3 (amended): on a decode that reaches the row loops, with
cancellation requested at every poll, each interlace pass issues at most one
row read before its first poll aborts that pass's row loop (so at most
numberPasses row reads in total), and teardown still completes: every
per-row foreign-heap buffer and the row-pointer array are freed, and both
callbacks and both app pointers are unregistered before onLoad returns. -/
theorem c3_amended_cancellation (p : LoadParams)
    (h1 : p.pngNull = false) (h2 : p.infoNull = false)
    (h3 : p.colorType ≠ PngColorType.other) (h4 : p.imageNull = false)
    (h5 : ∀ t, p.stop t = true) :
    (onLoadTrace p).count Ev.rowRead ≤ p.numberPasses ∧
    (onLoadTrace p).count (Ev.free 13) = (onLoadTrace p).count (Ev.malloc 13) ∧
    (onLoadTrace p).count (Ev.malloc 13) = p.height ∧
    (onLoadTrace p).count (Ev.free 12) = 1 ∧
    (onLoadTrace p).count (Ev.unregCb userChunkCbH) = 1 ∧
    (onLoadTrace p).count (Ev.unregCb readDataCbH) = 1 ∧
    (onLoadTrace p).count (Ev.unregPtr optsPtrH) = 1 ∧
    (onLoadTrace p).count (Ev.unregPtr appPtrH) = 1 := by
  obtain ⟨pn, infon, ct, imgn, plte, h, np, stop, cs⟩ := p
  simp only at h1 h2 h3 h4 h5
  subst h1
  subst h2
  subst h4
  have hplrr : (passLoop stop h 0 np).count Ev.rowRead =
      np * (if h = 0 then 0 else 1) :=
    passLoop_count_rowRead_stopTrue stop h5 h np 0
  have hp1 : (passLoop stop h 0 np).count (Ev.malloc 13) = 0 :=
    passLoop_count_not_row stop h np 0 _ (by decide)
  have hp2 : (passLoop stop h 0 np).count (Ev.free 13) = 0 :=
    passLoop_count_not_row stop h np 0 _ (by decide)
  have hp3 : (passLoop stop h 0 np).count (Ev.free 12) = 0 :=
    passLoop_count_not_row stop h np 0 _ (by decide)
  have hp4 : (passLoop stop h 0 np).count (Ev.unregCb 0) = 0 :=
    passLoop_count_not_row stop h np 0 _ (by decide)
  have hp5 : (passLoop stop h 0 np).count (Ev.unregCb 1) = 0 :=
    passLoop_count_not_row stop h np 0 _ (by decide)
  have hp6 : (passLoop stop h 0 np).count (Ev.unregPtr 0) = 0 :=
    passLoop_count_not_row stop h np 0 _ (by decide)
  have hp7 : (passLoop stop h 0 np).count (Ev.unregPtr 1) = 0 :=
    passLoop_count_not_row stop h np 0 _ (by decide)
  have hc0 : (loadColorSpaceTrace cs).count Ev.rowRead = 0 :=
    loadColorSpaceTrace_count_not_cs cs _ (by decide)
  have hc1 : (loadColorSpaceTrace cs).count (Ev.malloc 13) = 0 :=
    loadColorSpaceTrace_count_not_cs cs _ (by decide)
  have hc2 : (loadColorSpaceTrace cs).count (Ev.free 13) = 0 :=
    loadColorSpaceTrace_count_not_cs cs _ (by decide)
  have hc3 : (loadColorSpaceTrace cs).count (Ev.free 12) = 0 :=
    loadColorSpaceTrace_count_not_cs cs _ (by decide)
  have hc4 : (loadColorSpaceTrace cs).count (Ev.unregCb 0) = 0 :=
    loadColorSpaceTrace_count_not_cs cs _ (by decide)
  have hc5 : (loadColorSpaceTrace cs).count (Ev.unregCb 1) = 0 :=
    loadColorSpaceTrace_count_not_cs cs _ (by decide)
  have hc6 : (loadColorSpaceTrace cs).count (Ev.unregPtr 0) = 0 :=
    loadColorSpaceTrace_count_not_cs cs _ (by decide)
  have hc7 : (loadColorSpaceTrace cs).count (Ev.unregPtr 1) = 0 :=
    loadColorSpaceTrace_count_not_cs cs _ (by decide)
  unfold onLoadTrace
  refine ⟨?_, ?_, ?_, ?_, ?_, ?_, ?_, ?_⟩ <;>
  · simp only [Bool.false_eq_true, if_false, if_neg h3]
    split_ifs <;>
    · simp [List.count_cons, List.count_append, List.count_replicate,
        hplrr, hp1, hp2, hp3, hp4, hp5, hp6, hp7,
        hc0, hc1, hc2, hc3, hc4, hc5, hc6, hc7]
      try split_ifs <;> omega

/-- Witness for C3 (amended) at the cancelled 2-row 7-pass decode. -/
theorem c3_amended_cancellation_witness :
    (onLoadTrace cancelledLoad).count Ev.rowRead ≤
      cancelledLoad.numberPasses ∧
    (onLoadTrace cancelledLoad).count (Ev.free 13) =
      (onLoadTrace cancelledLoad).count (Ev.malloc 13) ∧
    (onLoadTrace cancelledLoad).count (Ev.malloc 13) = cancelledLoad.height ∧
    (onLoadTrace cancelledLoad).count (Ev.free 12) = 1 ∧
    (onLoadTrace cancelledLoad).count (Ev.unregCb userChunkCbH) = 1 ∧
    (onLoadTrace cancelledLoad).count (Ev.unregCb readDataCbH) = 1 ∧
    (onLoadTrace cancelledLoad).count (Ev.unregPtr optsPtrH) = 1 ∧
    (onLoadTrace cancelledLoad).count (Ev.unregPtr appPtrH) = 1 :=
  c3_amended_cancellation cancelledLoad rfl rfl (by decide) rfl
    (fun _ => rfl)

set_option maxHeartbeats 1600000 in
/-- Claim C6: on every exit path of onLoad — the two early null-check
returns, the unsupported-color-type return, the null-sequence-image return
and the success return — each of the two registered callbacks (the
user-chunk callback and the read-data callback) is unregistered exactly
once per registration, and each is registered at most once. -/
theorem c6_callbacks_unregistered_once (p : LoadParams) :
    (onLoadTrace p).count (Ev.regCb userChunkCbH) =
      (onLoadTrace p).count (Ev.unregCb userChunkCbH) ∧
    (onLoadTrace p).count (Ev.regCb readDataCbH) =
      (onLoadTrace p).count (Ev.unregCb readDataCbH) ∧
    (onLoadTrace p).count (Ev.regCb userChunkCbH) ≤ 1 ∧
    (onLoadTrace p).count (Ev.regCb readDataCbH) ≤ 1 := by
  obtain ⟨pn, infon, ct, imgn, plte, h, np, stop, cs⟩ := p
  have hpr0 : (passLoop stop h 0 np).count (Ev.regCb 0) = 0 :=
    passLoop_count_not_row stop h np 0 _ (by decide)
  have hpr1 : (passLoop stop h 0 np).count (Ev.regCb 1) = 0 :=
    passLoop_count_not_row stop h np 0 _ (by decide)
  have hpu0 : (passLoop stop h 0 np).count (Ev.unregCb 0) = 0 :=
    passLoop_count_not_row stop h np 0 _ (by decide)
  have hpu1 : (passLoop stop h 0 np).count (Ev.unregCb 1) = 0 :=
    passLoop_count_not_row stop h np 0 _ (by decide)
  have hcr0 : (loadColorSpaceTrace cs).count (Ev.regCb 0) = 0 :=
    loadColorSpaceTrace_count_not_cs cs _ (by decide)
  have hcr1 : (loadColorSpaceTrace cs).count (Ev.regCb 1) = 0 :=
    loadColorSpaceTrace_count_not_cs cs _ (by decide)
  have hcu0 : (loadColorSpaceTrace cs).count (Ev.unregCb 0) = 0 :=
    loadColorSpaceTrace_count_not_cs cs _ (by decide)
  have hcu1 : (loadColorSpaceTrace cs).count (Ev.unregCb 1) = 0 :=
    loadColorSpaceTrace_count_not_cs cs _ (by decide)
  unfold onLoadTrace
  cases pn with
  | true => simp [List.count_cons]
  | false =>
    cases infon with
    | true => simp [List.count_cons]
    | false =>
      by_cases hct : ct = PngColorType.other
      · rw [if_pos hct]
        simp [List.count_cons]
      · rw [if_neg hct]
        cases imgn with
        | true => simp [List.count_cons]
        | false =>
          refine ⟨?_, ?_, ?_, ?_⟩ <;>
          · simp only [Bool.false_eq_true, if_false]
            split_ifs <;>
            · simp [List.count_cons, List.count_append, List.count_replicate,
                hpr0, hpr1, hpu0, hpu1, hcr0, hcr1, hcu0, hcu1]

end PngSandbox
